import Mathlib

/-!
Verification of the ambit-mcp guarded deployment engine
(src/ambit-mcp/src: exec.ts, guard.ts, config.ts, handlers.ts, tools.ts).

The TypeScript handlers are embedded as pure Lean functions.  Each handler
takes, besides its parsed arguments, the platform responses it consumes
(the exec result of the command it runs, the enumerated address list, the
merged-config outcome) as explicit inputs, and returns its tool outcome
together with the ordered trace of platform commands it executed.
-/

namespace AmbitMcp

/-- Result of running a platform subprocess (exec.ts, ExecResult). -/
structure ExecResult where
  stdout : String
  stderr : String
  success : Bool
  code : Int
deriving Repr, DecidableEq

/-- Exec result of a successful command, used as a concrete platform response. -/
def okExec : ExecResult :=
  { stdout := "", stderr := "", success := true, code := 0 }

/-- JavaScript string-or-default: both undefined and the empty string are
falsy, so they select the default (guard.ts line 52, ip.Network or default). -/
def jsOr (s : Option String) (d : String) : String :=
  match s with
  | none => d
  | some v => if v = "" then d else v

/-- JavaScript truthiness of an optional string: undefined and "" are falsy. -/
def jsTruthy : Option String → Bool
  | none => false
  | some v => v != ""

/-- JavaScript diagnostic fallback: stderr, or stdout when stderr is empty
(handlers.ts, the recurring pattern result.stderr or result.stdout). -/
def diagText (r : ExecResult) : String :=
  if r.stderr = "" then r.stdout else r.stderr

/-- The JS String.startsWith test, evaluated on the character lists so that
proofs can compute it. -/
def strStartsWith (s p : String) : Bool :=
  p.data.isPrefixOf s.data

-- =============================================================================
-- Guard (guard.ts)
-- =============================================================================

/-- Error text thrown by assertNotRouter (guard.ts lines 18-21). -/
def routerGuardMsg : String :=
  "Cannot operate on ambit infrastructure apps (ambit-* prefix). " ++
  "Use the ambit CLI to manage routers."

/-- guard.ts assertNotRouter (lines 16-23): throws exactly when the app name
starts with "ambit-"; otherwise a no-op. -/
def assertNotRouter (app : String) : Except String Unit :=
  if strStartsWith app "ambit-" then Except.error routerGuardMsg else Except.ok ()

-- =============================================================================
-- Deploy auditor (guard.ts auditDeploy)
-- =============================================================================

/-- A network address record from the platform (schemas.ts FlyIpSchema):
Address, Type, optional Network.  The source field Type is spelled Type'
here because Type is reserved in Lean. -/
structure FlyIp where
  Address : String
  Type' : String
  Network : Option String
deriving Repr, DecidableEq

/-- Classification used by the audit loop: guard.ts line 49 compares
ip.Type against "private_v6". -/
def isPrivateIp (ip : FlyIp) : Bool :=
  ip.Type' = "private_v6"

/-- A surviving private allocation recorded by the audit
(guard.ts lines 50-53). -/
structure FlycastAllocation where
  address : String
  network : String
deriving Repr, DecidableEq

/-- guard.ts DeployAuditResult (lines 25-29). -/
structure DeployAuditResult where
  public_ips_released : Nat
  flycast_allocations : List FlycastAllocation
  warnings : List String
deriving Repr, DecidableEq

/-- The release command issued for a public address (guard.ts line 56). -/
def releaseCmd (app addr : String) : List String :=
  ["ips", "release", addr, "-a", app, "--yes"]

/-- The address-enumeration command (guard.ts lines 43-46). -/
def ipsListCmd (app : String) : List String :=
  ["ips", "list", "-a", app, "--json"]

/-- The merged-config command (guard.ts line 63). -/
def configShowCmd (app : String) : List String :=
  ["config", "show", "-a", app]

/-- Accumulated state of audit phase 1: the released count, the recorded
private allocations, and the release commands issued, each in loop order. -/
structure Phase1Result where
  public_ips_released : Nat
  flycast_allocations : List FlycastAllocation
  releaseCmds : List (List String)
deriving Repr, DecidableEq

/-- Phase 1 of auditDeploy (guard.ts lines 48-59): each address is processed
independently; a private one is recorded with its granting network
(empty or missing network falls back to "default"), any other one is
released by an immediate command and counted. -/
def auditPhase1 (app : String) : List FlyIp → Phase1Result
  | [] => { public_ips_released := 0, flycast_allocations := [], releaseCmds := [] }
  | ip :: rest =>
    let r := auditPhase1 app rest
    if isPrivateIp ip then
      { r with flycast_allocations :=
          { address := ip.Address, network := jsOr ip.Network "default" } ::
            r.flycast_allocations }
    else
      { r with public_ips_released := r.public_ips_released + 1,
               releaseCmds := releaseCmd app ip.Address :: r.releaseCmds }

/-- One entry of a service port list in the merged config
(guard.ts line 70, the inline shape). -/
structure ServicePort where
  handlers : Option (List String)
  port : Option Nat
deriving Repr, DecidableEq

/-- One service entry of the merged config. -/
structure FlyService where
  ports : Option (List ServicePort)
deriving Repr, DecidableEq

/-- The http_service section of the merged config (guard.ts line 84). -/
structure HttpService where
  force_https : Bool
deriving Repr, DecidableEq

/-- The fields of the merged config that auditDeploy phase 2 inspects. -/
structure MergedConfig where
  services : Option (List FlyService)
  http_service : Option HttpService
deriving Repr, DecidableEq

/-- Outcome of the config-show command as consumed by auditDeploy phase 2:
the command failed or printed nothing (silently skipped), its stdout was not
JSON (caught, one warning), or it parsed to a config. -/
inductive ConfigShow where
  | failed
  | invalid
  | parsed (c : MergedConfig)
deriving Repr, DecidableEq

/-- guard.ts lines 71-73: a port entry is dangerous when its handler list
includes "tls" and its port is 443; a missing handler list is falsy. -/
def portIsTls (p : ServicePort) : Bool :=
  (match p.handlers with
   | some hs => hs.contains "tls"
   | none => false) && (p.port == some 443)

/-- guard.ts lines 69-74: some port of the service is a public-TLS shape;
a missing port list is falsy. -/
def svcHasTls (svc : FlyService) : Bool :=
  match svc.ports with
  | some ps => ps.any portIsTls
  | none => false

/-- Warning text of guard.ts lines 76-79. -/
def tlsWarning : String :=
  "Service config has TLS handler on port 443. " ++
  "Safe only because no public IPs are allocated."

/-- Warning text of guard.ts lines 85-88. -/
def forceHttpsWarning : String :=
  "http_service.force_https is enabled. Has no effect on Flycast " ++
  "and suggests config was written for public deployment."

/-- Warning text of guard.ts line 93. -/
def configParseWarning : String :=
  "Could not inspect merged config."

/-- Warning text of guard.ts lines 98-100. -/
def noFlycastWarning : String :=
  "No Flycast IP allocated. App is not reachable via Flycast. " ++
  "Use fly_ip_allocate_flycast to allocate one."

/-- Phase 2 of auditDeploy (guard.ts lines 61-94): best-effort inspection of
the merged config, producing only warnings. -/
def configWarnings : ConfigShow → List String
  | ConfigShow.failed => []
  | ConfigShow.invalid => [configParseWarning]
  | ConfigShow.parsed c =>
    let svcs := match c.services with | some s => s | none => []
    (if svcs.isEmpty then []
     else if svcs.any svcHasTls then [tlsWarning] else []) ++
    (if (match c.http_service with | some h => h.force_https | none => false)
     then [forceHttpsWarning] else [])

/-- guard.ts auditDeploy (lines 35-105), with the platform state (the
enumerated address list and the config-show outcome) as explicit inputs.
Returns the audit result and the release commands issued by phase 1. -/
def auditDeploy (app : String) (ips : List FlyIp) (cfg : ConfigShow) :
    DeployAuditResult × List (List String) :=
  let p1 := auditPhase1 app ips
  let w3 := if p1.flycast_allocations.isEmpty then [noFlycastWarning] else []
  ({ public_ips_released := p1.public_ips_released,
     flycast_allocations := p1.flycast_allocations,
     warnings := configWarnings cfg ++ w3 },
   p1.releaseCmds)

-- =============================================================================
-- Deploy handlers (handlers.ts fly_deploy_safe / fly_deploy_unsafe)
-- =============================================================================

/-- The shared deploy inputs (tools.ts deployInputs): app plus optional
image, dockerfile, region, strategy, env map, build-arg map. -/
structure DeployArgs where
  app : String
  image : Option String
  dockerfile : Option String
  region : Option String
  strategy : Option String
  env : Option (List (String × String))
  build_args : Option (List (String × String))
deriving Repr, DecidableEq

/-- The JS push pattern for an optional value flag: if the value is truthy,
append the flag and the value (handlers.ts lines 614-617). -/
def optArg (flag : String) : Option String → List String
  | none => []
  | some v => if v = "" then [] else [flag, v]

/-- The JS push pattern for key/value records: for each entry, append the
flag and "key=value" (handlers.ts lines 618-627). -/
def pairArgs (flag : String) : Option (List (String × String)) → List String
  | none => []
  | some l => l.flatMap (fun kv => [flag, kv.1 ++ "=" ++ kv.2])

/-- The argument vector built by fly_deploy_safe (handlers.ts lines 610-627):
the enforced base with --no-public-ips and --flycast, then the optional
caller flags in source order. -/
def safeDeployCmd (a : DeployArgs) : List String :=
  ["deploy", "-a", a.app, "--yes", "--no-public-ips", "--flycast"] ++
  optArg "--image" a.image ++
  optArg "--dockerfile" a.dockerfile ++
  optArg "--primary-region" a.region ++
  optArg "--strategy" a.strategy ++
  pairArgs "-e" a.env ++
  pairArgs "--build-arg" a.build_args

/-- Inputs of the Unsafe-Mode deploy (tools.ts lines 602-610): the shared
deploy inputs plus the optional no_public_ips, flycast and ha controls.
An absent boolean input is falsy, hence modelled as false. -/
structure UnsafeDeployArgs where
  app : String
  image : Option String
  dockerfile : Option String
  region : Option String
  strategy : Option String
  no_public_ips : Bool
  flycast : Bool
  ha : Option Bool
  env : Option (List (String × String))
  build_args : Option (List (String × String))
deriving Repr, DecidableEq

/-- The argument vector built by fly_deploy_unsafe
(handlers.ts lines 649-666), in source order. -/
def unsafeDeployCmd (a : UnsafeDeployArgs) : List String :=
  ["deploy", "-a", a.app, "--yes"] ++
  optArg "--image" a.image ++
  optArg "--dockerfile" a.dockerfile ++
  optArg "--primary-region" a.region ++
  optArg "--strategy" a.strategy ++
  (if a.no_public_ips then ["--no-public-ips"] else []) ++
  (if a.flycast then ["--flycast"] else []) ++
  (if a.ha == some false then ["--ha=false"] else []) ++
  pairArgs "-e" a.env ++
  pairArgs "--build-arg" a.build_args

/-- A tool call outcome: the err(...) branch carrying its text, or the
ok(...) branch carrying the structuredContent payload. -/
inductive ToolOutcome (α : Type) where
  | failure (text : String)
  | success (data : α)
deriving Repr, DecidableEq

/-- Error text of handlers.ts lines 638-642. -/
def exposureMsg (n : Nat) : String :=
  "Deploy succeeded but " ++ toString n ++ " public IP(s) were found " ++
  "and released. This should not happen with --no-public-ips. " ++
  "Check fly.toml and deployment config."

/-- Error text of handlers.ts line 631 / 670. -/
def deployFailedMsg (r : ExecResult) : String :=
  "Deploy failed: " ++ diagText r

/-- handlers.ts fly_deploy_safe (lines 607-646): router guard, build the
enforced command, run it, and on success run the post-flight audit; a
positive released count turns the overall result into an error.  Returns
the outcome and the ordered trace of platform commands executed. -/
def fly_deploy_safe (a : DeployArgs) (deployExec : ExecResult)
    (ips : List FlyIp) (cfg : ConfigShow) :
    ToolOutcome DeployAuditResult × List (List String) :=
  if strStartsWith a.app "ambit-" then (ToolOutcome.failure routerGuardMsg, [])
  else
    let cmd := safeDeployCmd a
    if deployExec.success then
      let audited := auditDeploy a.app ips cfg
      let trace := cmd :: ipsListCmd a.app :: (audited.2 ++ [configShowCmd a.app])
      if 0 < audited.1.public_ips_released then
        (ToolOutcome.failure (exposureMsg audited.1.public_ips_released), trace)
      else
        (ToolOutcome.success audited.1, trace)
    else
      (ToolOutcome.failure (deployFailedMsg deployExec), [cmd])

/-- handlers.ts fly_deploy_unsafe (lines 648-673): no guard, no audit; build
the command from caller inputs alone and run it. -/
def fly_deploy_unsafe (a : UnsafeDeployArgs) (deployExec : ExecResult) :
    ToolOutcome Unit × List (List String) :=
  let cmd := unsafeDeployCmd a
  ((if deployExec.success then ToolOutcome.success ()
    else ToolOutcome.failure (deployFailedMsg deployExec)), [cmd])

-- =============================================================================
-- Destroy handlers (handlers.ts fly_app_destroy / fly_volumes_destroy)
-- =============================================================================

/-- Arguments of fly_app_destroy.  The registered input contract is app
alone (tools.ts lines 547-557); a confirm field a caller might send anyway
is carried here to show the handler never reads it. -/
structure AppDestroyArgs where
  app : String
  confirm : Option String
deriving Repr, DecidableEq

/-- handlers.ts fly_app_destroy (lines 167-174): the safe-mode router guard,
then the destroy command, with no confirmation check of any kind. -/
def fly_app_destroy (safe : Bool) (a : AppDestroyArgs) (ex : ExecResult) :
    ToolOutcome String × List (List String) :=
  if safe && strStartsWith a.app "ambit-" then (ToolOutcome.failure routerGuardMsg, [])
  else
    let cmd := ["apps", "destroy", a.app, "--yes"]
    ((if ex.success then ToolOutcome.success a.app
      else ToolOutcome.failure ("Failed to destroy app: " ++ diagText ex)), [cmd])

/-- Arguments of fly_volumes_destroy (tools.ts lines 410-425): app,
volume_id and the confirm string; confirm is optional here only to model a
caller omitting it, which the handler treats as a mismatch. -/
structure VolumesDestroyArgs where
  app : String
  volume_id : String
  confirm : Option String
deriving Repr, DecidableEq

/-- Error text of handlers.ts lines 547-550. -/
def confirmMismatchMsg (a : VolumesDestroyArgs) : String :=
  "Confirmation failed: \x27confirm\x27 must exactly match \x27volume_id\x27. " ++
  "Got confirm=\"" ++ (match a.confirm with | some c => c | none => "undefined") ++
  "\", volume_id=\"" ++ a.volume_id ++ "\"."

/-- handlers.ts fly_volumes_destroy (lines 544-562): router guard, then the
strict confirmation comparison (confirm must be exactly the volume id), and
only then the destroy command. -/
def fly_volumes_destroy (safe : Bool) (a : VolumesDestroyArgs) (ex : ExecResult) :
    ToolOutcome String × List (List String) :=
  if safe && strStartsWith a.app "ambit-" then (ToolOutcome.failure routerGuardMsg, [])
  else if a.confirm ≠ some a.volume_id then
    (ToolOutcome.failure (confirmMismatchMsg a), [])
  else
    let cmd := ["volumes", "destroy", a.volume_id, "-a", a.app, "--yes"]
    ((if ex.success then ToolOutcome.success a.volume_id
      else ToolOutcome.failure ("Failed to destroy volume: " ++ diagText ex)), [cmd])

-- =============================================================================
-- App creation (config.ts + handlers.ts fly_app_create)
-- =============================================================================

/-- The fly section of the ambit config file (config.ts lines 17-20). -/
structure FlyCfgSection where
  org : String
  region : Option String
deriving Repr, DecidableEq

/-- The ambit config file shape (config.ts lines 11-21), restricted to the
fields the handlers read. -/
structure AmbitConfig where
  network : String
  fly : Option FlyCfgSection
deriving Repr, DecidableEq

/-- config.ts getDefaultOrg (lines 42-44). -/
def getDefaultOrg : Option AmbitConfig → Option String
  | some c => c.fly.map (fun f => f.org)
  | none => none

/-- config.ts getDefaultNetwork (lines 47-49). -/
def getDefaultNetwork : Option AmbitConfig → Option String
  | some c => some c.network
  | none => none

/-- Arguments of fly_app_create.  In Safe Mode the registered contract is
name and org only (tools.ts lines 502-506); network is carried here to show
the safe handler never reads it. -/
structure AppCreateArgs where
  name : String
  org : Option String
  network : Option String
deriving Repr, DecidableEq

/-- Error text of handlers.ts lines 142-145. -/
def noNetworkMsg : String :=
  "No ambit network configured. Deploy a router first with " ++
  "\x27ambit deploy\x27 to create a network."

/-- structuredContent of a successful fly_app_create
(handlers.ts lines 160-164). -/
structure AppCreateOutput where
  name : String
  network : Option String
  org : String
deriving Repr, DecidableEq

/-- handlers.ts fly_app_create (lines 133-165): in Safe Mode the network is
always the configured one, never a caller input, and a missing configured
network aborts before any command; in Unsafe Mode the network is the
optional caller input.  The network and org flags are pushed only when
truthy. -/
def fly_app_create (safe : Bool) (a : AppCreateArgs)
    (config : Option AmbitConfig) (ex : ExecResult) :
    ToolOutcome AppCreateOutput × List (List String) :=
  let network : Option String :=
    if safe then getDefaultNetwork config else a.network
  if safe && !(jsTruthy network) then (ToolOutcome.failure noNetworkMsg, [])
  else
    let org : Option String :=
      match a.org with | some o => some o | none => getDefaultOrg config
    let cmd := ["apps", "create", a.name, "--json"] ++
      (if jsTruthy network then ["--network", network.getD ""] else []) ++
      (if jsTruthy org then ["--org", org.getD ""] else [])
    ((if ex.success then
        ToolOutcome.success { name := a.name, network := network, org := org.getD "" }
      else
        ToolOutcome.failure ("Failed to create app: " ++ diagText ex)), [cmd])

-- =============================================================================
-- App listing (handlers.ts fly_app_list)
-- =============================================================================

/-- A platform app record (schemas.ts FlyAppSchema), restricted to the
fields fly_app_list reads; OrgSlug stands for Organization.Slug. -/
structure FlyApp where
  Name : String
  Status : String
  Deployed : Bool
  Hostname : String
  OrgSlug : String
deriving Repr, DecidableEq

/-- One entry of the fly_app_list output (handlers.ts lines 122-128). -/
structure AppEntry where
  name : String
  status : String
  deployed : Bool
  hostname : String
  org : String
deriving Repr, DecidableEq

/-- The normalization applied to each listed app
(handlers.ts lines 122-128). -/
def normalizeApp (a : FlyApp) : AppEntry :=
  { name := a.Name, status := a.Status, deployed := a.Deployed,
    hostname := a.Hostname, org := a.OrgSlug }

/-- handlers.ts fly_app_list (lines 110-131), from the platform-returned app
list to the output entries: Safe Mode first drops every app whose name
starts with "ambit-"; Unsafe Mode drops nothing.  (The org-resolution and
command plumbing of lines 111-115 do not affect the filtering.) -/
def fly_app_list (safe : Bool) (apps : List FlyApp) : List AppEntry :=
  let kept := if safe then apps.filter (fun a => !(strStartsWith a.Name "ambit-"))
              else apps
  kept.map normalizeApp

-- =============================================================================
-- Tool registry facts (tools.ts / handlers.ts assembly)
-- =============================================================================

/-- The handler names registered per mode (handlers.ts lines 845-891). -/
def handlerNames (safe : Bool) : List String :=
  ["fly_auth_status", "fly_app_status", "fly_app_list", "fly_app_create",
   "fly_app_destroy", "fly_machine_list", "fly_machine_start",
   "fly_machine_stop", "fly_machine_destroy", "fly_machine_exec",
   "fly_ip_list", "fly_ip_release", "fly_secrets_list", "fly_secrets_set",
   "fly_secrets_unset", "fly_scale_show", "fly_scale_count", "fly_scale_vm",
   "fly_volumes_list", "fly_volumes_create", "fly_volumes_destroy",
   "fly_config_show", "fly_logs", "fly_deploy"] ++
  (if safe then
    ["fly_ip_allocate_flycast", "router_list", "router_status",
     "router_deploy", "router_destroy", "router_doctor", "router_logs"]
   else
    ["fly_ip_allocate_v6", "fly_ip_allocate_v4", "fly_ip_allocate",
     "fly_certs_list", "fly_certs_add", "fly_certs_remove"])

/-- The input contract of fly_app_create per mode (tools.ts appCreateTool,
lines 491-538): each field name paired with whether it is required.
Safe Mode declares name and org only; Unsafe Mode adds an optional
network field. -/
def appCreateInputFields (safe : Bool) : List (String × Bool) :=
  if safe then [("name", true), ("org", false)]
  else [("name", true), ("org", false), ("network", false)]

/-- The input contract of fly_app_destroy (tools.ts lines 547-557):
the app name alone — no confirmation field exists. -/
def appDestroyInputFields : List (String × Bool) :=
  [("app", true)]

/-- The input contract of fly_volumes_destroy (tools.ts lines 410-425). -/
def volumesDestroyInputFields : List (String × Bool) :=
  [("app", true), ("volume_id", true), ("confirm", true)]

-- =============================================================================
-- Derived state for the idempotence property
-- =============================================================================

/-- The addresses named by the release commands of audit phase 1: position 2
of each issued command (releaseCmd places the address there). -/
def releasedOf (app : String) (ips : List FlyIp) : List String :=
  ((auditPhase1 app ips).releaseCmds).filterMap (fun c => c.get? 2)

/-- The platform address list after a set of releases: every address named
by a release command is gone, nothing else changes. -/
def remaining (ips : List FlyIp) (released : List String) : List FlyIp :=
  ips.filter (fun ip => ip.Address ∉ released)

-- =============================================================================
-- Caller-input cleanliness for the Unsafe-Mode deploy
-- =============================================================================

/-- The caller-supplied string positions of an Unsafe-Mode deploy all differ
from the string x.  Rules out only the degenerate case of a caller typing an
enforced-flag literal into a value slot (an image name, a region, an
environment pair), where the flat argument vector cannot distinguish it
from the flag itself. -/
def avoids (a : UnsafeDeployArgs) (x : String) : Prop :=
  a.app ≠ x ∧ a.image ≠ some x ∧ a.dockerfile ≠ some x ∧
  a.region ≠ some x ∧ a.strategy ≠ some x ∧
  (∀ kv ∈ (a.env).getD [], kv.1 ++ "=" ++ kv.2 ≠ x) ∧
  (∀ kv ∈ (a.build_args).getD [], kv.1 ++ "=" ++ kv.2 ≠ x)

instance (a : UnsafeDeployArgs) (x : String) : Decidable (avoids a x) := by
  unfold avoids; infer_instance

-- =============================================================================
-- Concrete inputs used by witnesses and counterexamples
-- =============================================================================

/-- A public IPv4 address record as the platform reports one. -/
def ipPub : FlyIp := { Address := "1.2.3.4", Type' := "v4", Network := none }

/-- Plain Safe-Mode deploy arguments. -/
def sArgsW : DeployArgs :=
  { app := "my-app", image := none, dockerfile := none, region := none,
    strategy := none, env := none, build_args := none }

/-- Plain Unsafe-Mode deploy arguments: neither exposure input set. -/
def uArgsW : UnsafeDeployArgs :=
  { app := "my-app", image := none, dockerfile := none, region := none,
    strategy := none, no_public_ips := false, flycast := false, ha := none,
    env := none, build_args := none }

/-- Unsafe-Mode deploy arguments whose image slot carries "-p", the
port-exposure flag of the documented blocklist (design.md line 536). -/
def c4Args : UnsafeDeployArgs :=
  { app := "my-app", image := some "-p", dockerfile := none, region := none,
    strategy := none, no_public_ips := false, flycast := false, ha := none,
    env := none, build_args := none }

/-- A Dockerfile deploy: the case where a local descriptor is available and
the documented pre-flight scan would have to run. -/
def c5Args : DeployArgs :=
  { app := "my-app", image := none, dockerfile := some "Dockerfile",
    region := none, strategy := none, env := none, build_args := none }

/-- A merged config declaring forced HTTPS: the pattern the documented
pre-flight scan marks as blocking (ok=false). -/
def c5Config : MergedConfig :=
  { services := none, http_service := some { force_https := true } }

/-- A protected infrastructure app as the platform reports it. -/
def ambitApp : FlyApp :=
  { Name := "ambit-router", Status := "running", Deployed := true,
    Hostname := "h1", OrgSlug := "org" }

/-- An ordinary app as the platform reports it. -/
def webApp : FlyApp :=
  { Name := "web", Status := "running", Deployed := true,
    Hostname := "h2", OrgSlug := "org" }

/-- A platform app list holding one protected infrastructure app and one
ordinary app. -/
def appsW : List FlyApp := [ambitApp, webApp]

-- =============================================================================
-- Helper lemmas
-- =============================================================================

theorem auditPhase1_count (app : String) (ips : List FlyIp) :
    (auditPhase1 app ips).public_ips_released =
      (ips.filter (fun ip => !(isPrivateIp ip))).length := by
  induction ips with
  | nil => rfl
  | cons ip rest ih =>
    cases h : isPrivateIp ip <;> simp [auditPhase1, h, ih]

theorem auditPhase1_allocs (app : String) (ips : List FlyIp) :
    (auditPhase1 app ips).flycast_allocations =
      (ips.filter (fun ip => isPrivateIp ip)).map
        (fun ip => { address := ip.Address, network := jsOr ip.Network "default" }) := by
  induction ips with
  | nil => rfl
  | cons ip rest ih =>
    cases h : isPrivateIp ip <;> simp [auditPhase1, h, ih]

theorem auditPhase1_cmds (app : String) (ips : List FlyIp) :
    (auditPhase1 app ips).releaseCmds =
      (ips.filter (fun ip => !(isPrivateIp ip))).map
        (fun ip => releaseCmd app ip.Address) := by
  induction ips with
  | nil => rfl
  | cons ip rest ih =>
    cases h : isPrivateIp ip <;> simp [auditPhase1, h, ih]

theorem filterMap_releaseCmd (app : String) (l : List FlyIp) :
    (l.map (fun ip => releaseCmd app ip.Address)).filterMap (fun c => c.get? 2)
      = l.map (fun ip => ip.Address) := by
  induction l with
  | nil => rfl
  | cons ip rest ih =>
    rw [List.map_cons, List.filterMap_cons]
    have h2 : (releaseCmd app ip.Address).get? 2 = some ip.Address := rfl
    rw [h2, ih, List.map_cons]

theorem releasedOf_eq (app : String) (ips : List FlyIp) :
    releasedOf app ips =
      (ips.filter (fun ip => !(isPrivateIp ip))).map (fun ip => ip.Address) := by
  unfold releasedOf
  rw [auditPhase1_cmds, filterMap_releaseCmd]

-- =============================================================================
-- C3
-- =============================================================================

/-- C3: Audit phase 1 processes each enumerated address independently: the
private ones (classification private_v6) are recorded, in order, in
flycast_allocations with their granting network (defaulting to "default");
every other address yields exactly one release command naming that exact
address and adds one to public_ips_released — so after phase 1 the released
count is the number of non-private addresses and the allocations are
exactly the private ones. -/
theorem auditPhase1_spec (app : String) (ips : List FlyIp) :
    (auditPhase1 app ips).public_ips_released =
        (ips.filter (fun ip => !(isPrivateIp ip))).length
    ∧ (auditPhase1 app ips).flycast_allocations =
        (ips.filter (fun ip => isPrivateIp ip)).map
          (fun ip => { address := ip.Address, network := jsOr ip.Network "default" })
    ∧ (auditPhase1 app ips).releaseCmds =
        (ips.filter (fun ip => !(isPrivateIp ip))).map
          (fun ip => releaseCmd app ip.Address) :=
  ⟨auditPhase1_count app ips, auditPhase1_allocs app ips, auditPhase1_cmds app ips⟩

-- =============================================================================
-- C8
-- =============================================================================

/-- C8: auditDeploy is idempotent: when a second audit runs on the address
list produced by the first run's remediation (the enumerated list minus
every address named by a release command of the first run), the second run
releases nothing, whatever config-show outcome it observes. -/
theorem audit_idempotent (app : String) (ips : List FlyIp)
    (cfg' : ConfigShow) :
    ((auditDeploy app (remaining ips (releasedOf app ips)) cfg').1).public_ips_released
      = 0 := by
  have hpriv : ∀ ip ∈ remaining ips (releasedOf app ips), isPrivateIp ip = true := by
    intro ip hip
    rw [remaining, List.mem_filter] at hip
    obtain ⟨hmem, hnc⟩ := hip
    by_contra h
    have haddr : ip.Address ∈ releasedOf app ips := by
      rw [releasedOf_eq]
      refine List.mem_map_of_mem _ (List.mem_filter.mpr ⟨hmem, ?_⟩)
      simp [Bool.not_eq_true] at h ⊢
      exact h
    simp at hnc
    exact hnc haddr
  have hnil : (remaining ips (releasedOf app ips)).filter
      (fun ip => !(isPrivateIp ip)) = [] := by
    rw [List.filter_eq_nil_iff]
    intro ip hip
    simp [hpriv ip hip]
  show (auditPhase1 app (remaining ips (releasedOf app ips))).public_ips_released = 0
  rw [auditPhase1_count, hnil]
  rfl

-- =============================================================================
-- C2
-- =============================================================================

/-- C2: In a Safe-Mode deploy whose platform deploy command succeeds (and
whose router guard passes), the audit's public_ips_released equals the
number of release commands issued; a positive count makes the whole
operation report failure (the post-deploy exposure error carrying that
count), and a zero count makes it report success carrying the audit. -/
theorem safe_deploy_audit_verdict (a : DeployArgs) (ex : ExecResult)
    (ips : List FlyIp) (cfg : ConfigShow)
    (hguard : strStartsWith a.app "ambit-" = false)
    (hsucc : ex.success = true) :
    (auditDeploy a.app ips cfg).1.public_ips_released
        = (auditDeploy a.app ips cfg).2.length
    ∧ (0 < (auditDeploy a.app ips cfg).1.public_ips_released →
        (fly_deploy_safe a ex ips cfg).1
          = ToolOutcome.failure
              (exposureMsg (auditDeploy a.app ips cfg).1.public_ips_released))
    ∧ ((auditDeploy a.app ips cfg).1.public_ips_released = 0 →
        (fly_deploy_safe a ex ips cfg).1
          = ToolOutcome.success (auditDeploy a.app ips cfg).1) := by
  refine ⟨?_, ?_, ?_⟩
  · show (auditPhase1 a.app ips).public_ips_released
        = (auditPhase1 a.app ips).releaseCmds.length
    rw [auditPhase1_count, auditPhase1_cmds, List.length_map]
  · intro h
    simp only [fly_deploy_safe, hguard, Bool.false_eq_true, if_false, hsucc,
      if_true]
    simp [auditDeploy] at h ⊢
    simp [h]
  · intro h
    simp only [fly_deploy_safe, hguard, Bool.false_eq_true, if_false, hsucc,
      if_true]
    simp [auditDeploy] at h ⊢
    simp [h]

/-- Witness for C2 at a concrete input: one public address enumerated after
a successful deploy makes the operation fail with the exposure error. -/
theorem safe_deploy_audit_verdict_witness :
    strStartsWith "my-app" "ambit-" = false ∧ okExec.success = true ∧
    (fly_deploy_safe sArgsW okExec [ipPub] ConfigShow.failed).1
      = ToolOutcome.failure (exposureMsg 1) := by
  refine ⟨by decide, rfl, ?_⟩
  exact (safe_deploy_audit_verdict sArgsW okExec [ipPub] ConfigShow.failed
    (by decide) rfl).2.1 (by decide)

-- =============================================================================
-- C6
-- =============================================================================

/-- Counterexample to C6 as stated: the guard does not fail on the name
"router-browsers-ab12" — the reserved pattern is the "ambit-" prefix, which
this name does not match. -/
theorem router_name_not_protected :
    assertNotRouter "router-browsers-ab12" = Except.ok () := rfl

/-- C6 (amended): the protected-name guard fails exactly when the app name
starts with "ambit-"; in particular "ambit-browsers-ab12" fails and
"my-app" succeeds. -/
theorem assertNotRouter_spec :
    (∀ app : String,
        assertNotRouter app = Except.error routerGuardMsg
          ↔ strStartsWith app "ambit-" = true)
    ∧ assertNotRouter "ambit-browsers-ab12" = Except.error routerGuardMsg
    ∧ assertNotRouter "my-app" = Except.ok () := by
  refine ⟨?_, rfl, rfl⟩
  intro app
  cases h : strStartsWith app "ambit-" <;> simp [assertNotRouter, h]

/-- Witness for C6 at a concrete input: the equivalence instantiated on a
name matching the reserved pattern. -/
theorem assertNotRouter_spec_witness :
    assertNotRouter "ambit-x" = Except.error routerGuardMsg :=
  (assertNotRouter_spec.1 "ambit-x").mpr (by decide)

-- =============================================================================
-- C7
-- =============================================================================

/-- C7 evaluated at the failing input: a Safe-Mode app destroy with a
mismatched confirmation value still executes the destroy command and
reports success — the handler performs no confirmation check at all (the
claimed behavior holds only for the volume destroy handler). -/
theorem app_destroy_executes_without_confirmation :
    fly_app_destroy true { app := "my-app", confirm := some "WRONG" } okExec
      = (ToolOutcome.success "my-app",
         [["apps", "destroy", "my-app", "--yes"]]) := by decide

-- =============================================================================
-- C4
-- =============================================================================

/-- C4 evaluated at the failing input: an Unsafe-Mode deploy whose image
slot is "-p" (a flag of the documented blocklist) constructs an argument
vector containing "-p" and passes it to the subprocess — no construction
failure, no forbidden-flag error, the flag is neither stripped nor
rejected. -/
theorem blocked_flag_passed_to_subprocess :
    unsafeDeployCmd c4Args = ["deploy", "-a", "my-app", "--yes", "--image", "-p"]
    ∧ "-p" ∈ unsafeDeployCmd c4Args
    ∧ ( fly_deploy_unsafe c4Args okExec)
        = (ToolOutcome.success (), [unsafeDeployCmd c4Args]) := by decide

-- =============================================================================
-- C5
-- =============================================================================

/-- C5 evaluated at the failing input: a Safe-Mode deploy with a local
descriptor available (a Dockerfile build) executes the platform deploy
command as its very first action — no pre-flight scan exists, and even when
the merged config shows forced HTTPS (a pattern the documented scan must
block with ok=false) the operation proceeds and reports success, the
pattern surfacing only as a post-flight warning. -/
theorem deploy_runs_without_preflight :
    ((fly_deploy_safe c5Args okExec [] (ConfigShow.parsed c5Config)).2).head?
        = some (safeDeployCmd c5Args)
    ∧ safeDeployCmd c5Args
        = ["deploy", "-a", "my-app", "--yes", "--no-public-ips", "--flycast",
           "--dockerfile", "Dockerfile"]
    ∧ (fly_deploy_safe c5Args okExec [] (ConfigShow.parsed c5Config)).1
        = ToolOutcome.success
            { public_ips_released := 0, flycast_allocations := [],
              warnings := [forceHttpsWarning, noFlycastWarning] } := by decide

-- =============================================================================
-- C10
-- =============================================================================

/-- C10: Safe-Mode app listing never returns an app whose name starts with
"ambit-", for every platform-returned list; Unsafe-Mode listing is the
plain normalization of the full list, with no filtering. -/
theorem app_list_filters_protected :
    (∀ (apps : List FlyApp) (e : AppEntry),
        e ∈ fly_app_list true apps → strStartsWith e.name "ambit-" = false)
    ∧ (∀ apps : List FlyApp, fly_app_list false apps = apps.map normalizeApp) := by
  constructor
  · intro apps e he
    simp only [fly_app_list, if_true, List.mem_map] at he
    obtain ⟨a, ha, rfl⟩ := he
    have hf := (List.mem_filter.mp ha).2
    simpa [normalizeApp, Bool.not_eq_true'] using hf
  · intro apps
    rfl

/-- Witness for C10 at a concrete input: with one protected and one
ordinary app in the platform list, the ordinary app's entry is in the
Safe-Mode output and its name does not carry the protected prefix. -/
theorem app_list_filters_protected_witness :
    normalizeApp webApp ∈ fly_app_list true appsW
    ∧ strStartsWith (normalizeApp webApp).name "ambit-" = false :=
  ⟨by decide, app_list_filters_protected.1 appsW _ (by decide)⟩

-- =============================================================================
-- Membership lemmas for the deploy argument vectors
-- =============================================================================

theorem mem_optArg {x flag : String} {o : Option String}
    (hx : x ∈ optArg flag o) : x = flag ∨ ∃ v, o = some v ∧ x = v := by
  cases o with
  | none => simp [optArg] at hx
  | some v =>
    by_cases hv : v = ""
    · simp [optArg, hv] at hx
    · simp [optArg, hv] at hx
      rcases hx with h | h
      · exact Or.inl h
      · exact Or.inr ⟨v, rfl, h⟩

theorem mem_pairArgsList {x flag : String} {l : List (String × String)}
    (hx : x ∈ pairArgs flag (some l)) :
    x = flag ∨ ∃ kv, kv ∈ l ∧ x = kv.1 ++ "=" ++ kv.2 := by
  induction l with
  | nil => simp [pairArgs] at hx
  | cons kv rest ih =>
    simp only [pairArgs, List.flatMap_cons, List.mem_append] at hx ih
    rcases hx with h | h
    · simp only [List.mem_cons, List.not_mem_nil, or_false] at h
      rcases h with h | h
      · exact Or.inl h
      · exact Or.inr ⟨kv, List.mem_cons_self kv rest, h⟩
    · rcases ih h with h' | ⟨kv', hkv', hx'⟩
      · exact Or.inl h'
      · exact Or.inr ⟨kv', List.mem_cons_of_mem _ hkv', hx'⟩

theorem mem_pairArgs {x flag : String} {o : Option (List (String × String))}
    (hx : x ∈ pairArgs flag o) :
    x = flag ∨ ∃ kv, kv ∈ o.getD [] ∧ x = kv.1 ++ "=" ++ kv.2 := by
  cases o with
  | none => simp [pairArgs] at hx
  | some l => simpa using mem_pairArgsList hx

theorem mem_ite_singleton {x y : String} {c : Prop} [Decidable c]
    (h : x ∈ (if c then [y] else [])) : c ∧ x = y := by
  by_cases hc : c
  · simp [hc] at h
    exact ⟨hc, h⟩
  · simp [hc] at h

theorem mem_unsafeDeployCmd {x : String} {u : UnsafeDeployArgs}
    (hx : x ∈ unsafeDeployCmd u) :
    x = "deploy" ∨ x = "-a" ∨ x = u.app ∨ x = "--yes"
    ∨ x ∈ optArg "--image" u.image
    ∨ x ∈ optArg "--dockerfile" u.dockerfile
    ∨ x ∈ optArg "--primary-region" u.region
    ∨ x ∈ optArg "--strategy" u.strategy
    ∨ (u.no_public_ips = true ∧ x = "--no-public-ips")
    ∨ (u.flycast = true ∧ x = "--flycast")
    ∨ x = "--ha=false"
    ∨ x ∈ pairArgs "-e" u.env
    ∨ x ∈ pairArgs "--build-arg" u.build_args := by
  simp only [unsafeDeployCmd, List.mem_append] at hx
  rcases hx with ((((((((hA | hB) | hC) | hD) | hE) | hF) | hG) | hH) | hI) | hJ
  · simp only [List.mem_cons, List.not_mem_nil, or_false] at hA
    tauto
  · exact Or.inr (Or.inr (Or.inr (Or.inr (Or.inl hB))))
  · exact Or.inr (Or.inr (Or.inr (Or.inr (Or.inr (Or.inl hC)))))
  · exact Or.inr (Or.inr (Or.inr (Or.inr (Or.inr (Or.inr (Or.inl hD))))))
  · exact Or.inr (Or.inr (Or.inr (Or.inr (Or.inr (Or.inr (Or.inr (Or.inl hE)))))))
  · have h := mem_ite_singleton hF
    exact Or.inr (Or.inr (Or.inr (Or.inr (Or.inr (Or.inr (Or.inr (Or.inr
      (Or.inl h))))))))
  · have h := mem_ite_singleton hG
    exact Or.inr (Or.inr (Or.inr (Or.inr (Or.inr (Or.inr (Or.inr (Or.inr
      (Or.inr (Or.inl h)))))))))
  · have h := mem_ite_singleton hH
    exact Or.inr (Or.inr (Or.inr (Or.inr (Or.inr (Or.inr (Or.inr (Or.inr
      (Or.inr (Or.inr (Or.inl h.2))))))))))
  · exact Or.inr (Or.inr (Or.inr (Or.inr (Or.inr (Or.inr (Or.inr (Or.inr
      (Or.inr (Or.inr (Or.inr (Or.inl hI)))))))))))
  · exact Or.inr (Or.inr (Or.inr (Or.inr (Or.inr (Or.inr (Or.inr (Or.inr
      (Or.inr (Or.inr (Or.inr (Or.inr hJ)))))))))))

/-- Every caller-supplied value slot differs from x, so x is in the built
Unsafe-Mode vector only if it is one of the fixed tokens or an enforced
exposure flag whose input was set. -/
theorem avoids_not_mem_unsafe {x : String} {u : UnsafeDeployArgs}
    (hav : avoids u x)
    (hne : x ≠ "deploy" ∧ x ≠ "-a" ∧ x ≠ "--yes" ∧ x ≠ "--image" ∧
           x ≠ "--dockerfile" ∧ x ≠ "--primary-region" ∧ x ≠ "--strategy" ∧
           x ≠ "--ha=false" ∧ x ≠ "-e" ∧ x ≠ "--build-arg")
    (hnp : u.no_public_ips = true → x ≠ "--no-public-ips")
    (hfc : u.flycast = true → x ≠ "--flycast") :
    x ∉ unsafeDeployCmd u := by
  intro hmem
  rcases mem_unsafeDeployCmd hmem with h|h|h|h|h|h|h|h|h|h|h|h|h
  · exact hne.1 h
  · exact hne.2.1 h
  · exact hav.1 h.symm
  · exact hne.2.2.1 h
  · rcases mem_optArg h with h' | ⟨v, hv, hxv⟩
    · exact hne.2.2.2.1 h'
    · exact hav.2.1 (by rw [hv, ← hxv])
  · rcases mem_optArg h with h' | ⟨v, hv, hxv⟩
    · exact hne.2.2.2.2.1 h'
    · exact hav.2.2.1 (by rw [hv, ← hxv])
  · rcases mem_optArg h with h' | ⟨v, hv, hxv⟩
    · exact hne.2.2.2.2.2.1 h'
    · exact hav.2.2.2.1 (by rw [hv, ← hxv])
  · rcases mem_optArg h with h' | ⟨v, hv, hxv⟩
    · exact hne.2.2.2.2.2.2.1 h'
    · exact hav.2.2.2.2.1 (by rw [hv, ← hxv])
  · exact hnp h.1 h.2
  · exact hfc h.1 h.2
  · exact hne.2.2.2.2.2.2.2.1 h
  · rcases mem_pairArgs h with h' | ⟨kv, hkv, hx'⟩
    · exact hne.2.2.2.2.2.2.2.2.1 h'
    · exact hav.2.2.2.2.2.1 kv hkv hx'.symm
  · rcases mem_pairArgs h with h' | ⟨kv, hkv, hx'⟩
    · exact hne.2.2.2.2.2.2.2.2.2 h'
    · exact hav.2.2.2.2.2.2 kv hkv hx'.symm

-- =============================================================================
-- C1
-- =============================================================================

/-- C1: Every Safe-Mode deploy vector contains both enforced safety flags,
whatever the caller supplied; an Unsafe-Mode deploy vector contains an
enforced flag exactly when the caller set the corresponding input
(no_public_ips, flycast), provided no caller value slot is the literal flag
string itself. -/
theorem deploy_enforced_flags (s : DeployArgs) (u : UnsafeDeployArgs)
    (hn : avoids u "--no-public-ips") (hf : avoids u "--flycast") :
    "--no-public-ips" ∈ safeDeployCmd s
    ∧ "--flycast" ∈ safeDeployCmd s
    ∧ (u.no_public_ips = true → "--no-public-ips" ∈ unsafeDeployCmd u)
    ∧ (u.flycast = true → "--flycast" ∈ unsafeDeployCmd u)
    ∧ (u.no_public_ips = false → "--no-public-ips" ∉ unsafeDeployCmd u)
    ∧ (u.flycast = false → "--flycast" ∉ unsafeDeployCmd u) := by
  refine ⟨?_, ?_, ?_, ?_, ?_, ?_⟩
  · simp [safeDeployCmd]
  · simp [safeDeployCmd]
  · intro h; simp [unsafeDeployCmd, h]
  · intro h; simp [unsafeDeployCmd, h]
  · intro h
    exact avoids_not_mem_unsafe hn (by decide)
      (fun ht => absurd (h.symm.trans ht) (by decide))
      (fun _ => by decide)
  · intro h
    exact avoids_not_mem_unsafe hf (by decide)
      (fun _ => by decide)
      (fun ht => absurd (h.symm.trans ht) (by decide))

/-- Witness for C1 at a concrete input: with neither exposure input set and
ordinary values everywhere, the Safe-Mode vector carries both flags and the
Unsafe-Mode vector carries neither. -/
theorem deploy_enforced_flags_witness :
    "--no-public-ips" ∈ safeDeployCmd sArgsW
    ∧ "--flycast" ∈ safeDeployCmd sArgsW
    ∧ "--no-public-ips" ∉ unsafeDeployCmd uArgsW
    ∧ "--flycast" ∉ unsafeDeployCmd uArgsW := by
  have h := deploy_enforced_flags sArgsW uArgsW (by decide) (by decide)
  exact ⟨h.1, h.2.1, h.2.2.2.2.1 rfl, h.2.2.2.2.2 rfl⟩

-- =============================================================================
-- C9
-- =============================================================================

/-- Counterexample to C9 as stated: "network" is not a field of the
Safe-Mode app-creation input contract at all, so it is not a required input
field there. -/
theorem network_not_in_safe_create_contract :
    "network" ∉ (appCreateInputFields true).map Prod.fst := by decide

/-- C9 (amended): app creation exists in both Modes; in Unsafe Mode
"network" is an optional input field; in Safe Mode "network" is not a
caller input at all — the handler ignores any caller-sent network, takes
the network from configuration, fails before any command when none is
configured, and every executed create command carries the configured
network. -/
theorem app_create_network_policy :
    ("fly_app_create" ∈ handlerNames true)
    ∧ ("fly_app_create" ∈ handlerNames false)
    ∧ (("network", false) ∈ appCreateInputFields false)
    ∧ ("network" ∉ (appCreateInputFields true).map Prod.fst)
    ∧ (∀ (a : AppCreateArgs) (c : Option AmbitConfig) (ex : ExecResult),
        jsTruthy (getDefaultNetwork c) = false →
          fly_app_create true a c ex = (ToolOutcome.failure noNetworkMsg, []))
    ∧ (∀ (a : AppCreateArgs) (c : Option AmbitConfig) (ex : ExecResult)
        (cmd : List String),
        jsTruthy (getDefaultNetwork c) = true →
        cmd ∈ (fly_app_create true a c ex).2 →
          "--network" ∈ cmd ∧ (getDefaultNetwork c).getD "" ∈ cmd)
    ∧ (∀ (a : AppCreateArgs) (c : Option AmbitConfig) (ex : ExecResult),
        fly_app_create true a c ex
          = fly_app_create true { a with network := none } c ex) := by
  refine ⟨by decide, by decide, by decide, by decide, ?_, ?_, ?_⟩
  · intro a c ex h
    simp [fly_app_create, h]
  · intro a c ex cmd h hmem
    simp [fly_app_create, h] at hmem
    subst hmem
    constructor <;> simp [h]
  · intro a c ex
    rfl

/-- Witness for C9 at concrete inputs: with no configuration the Safe-Mode
creation fails before any command; with network "browsers" configured the
executed command carries it. -/
theorem app_create_network_policy_witness :
    fly_app_create true { name := "my-app", org := none, network := none }
        none okExec = (ToolOutcome.failure noNetworkMsg, [])
    ∧ "--network" ∈ (["apps", "create", "my-app", "--json", "--network",
        "browsers"] : List String)
    ∧ "browsers" ∈ (["apps", "create", "my-app", "--json", "--network",
        "browsers"] : List String) := by
  have h5 := app_create_network_policy.2.2.2.2.1
    { name := "my-app", org := none, network := none } none okExec rfl
  have h6 := app_create_network_policy.2.2.2.2.2.1
    { name := "my-app", org := none, network := none }
    (some { network := "browsers", fly := none }) okExec
    (["apps", "create", "my-app", "--json", "--network", "browsers"])
    (by decide) (by decide)
  exact ⟨h5, h6.1, h6.2⟩

end AmbitMcp
